import Mathlib

/-
Verification of the vibedispatch OSS contribution pipeline.

Shallow embedding of the core pipeline code:
  - backend/helpers/oss_helpers.py   (score_issue_fallback)
  - backend/routes/oss_routes.py     (fork-and-assign, GO-tier notification
                                      gate, submitted-PR polling)
  - backend/services/oss_service.py  (assignment tracking, submitted-PR
                                      records, agent context builder)
  - backend/services/cache.py        (TTL cache)

External commands (gh CLI, aggregator HTTP) are modelled as explicit
environment records holding the results those calls would return; durable
JSON collections are modelled as Lean lists passed in and out of each
operation.  Python code that can raise an uncaught exception is modelled
with Option (none = the exception propagates).
-/

namespace VibeDispatch

/-! ## String primitives

Python string operations used by the embedded code (`lower`, `upper`,
`strip`, `rstrip("/")`, `split("/")`, `int(...)`), implemented over the
character list so concrete runs reduce. -/

def lowerAscii (s : String) : String := ⟨s.data.map Char.toLower⟩

def upperAscii (s : String) : String := ⟨s.data.map Char.toUpper⟩

/-- Python `str.strip()`. -/
def stripWs (s : String) : String :=
  ⟨((s.data.dropWhile Char.isWhitespace).reverse.dropWhile Char.isWhitespace).reverse⟩

/-- Python `str.rstrip(c)` for a single character. -/
def rstripChar (c : Char) (s : String) : String :=
  ⟨(s.data.reverse.dropWhile (fun d => d == c)).reverse⟩

/-- Python `str.split(c)` for a single-character separator. -/
def splitOnChar (c : Char) (s : String) : List String :=
  (s.data.splitOnP (fun d => d == c)).map (fun l => ⟨l⟩)

def digitsToNat? (cs : List Char) : Option Nat :=
  if cs ≠ [] ∧ cs.all Char.isDigit then
    some (cs.foldl (fun n c => n * 10 + (c.toNat - 48)) 0)
  else none

/-- Python `int(str)`: optional surrounding whitespace, optional sign,
decimal digits; `none` models the `ValueError` other inputs raise. -/
def pyInt? (s : String) : Option Int :=
  let cs := (stripWs s).data
  match cs with
  | '-' :: rest => (digitsToNat? rest).map (fun n => -(n : Int))
  | '+' :: rest => (digitsToNat? rest).map (fun n => (n : Int))
  | _ => (digitsToNat? cs).map (fun n => (n : Int))

/-! ## Issue scorer fallback (backend/helpers/oss_helpers.py)

`score_issue_fallback(issue)` receives a JSON dict whose fields may come in
several shapes from different upstream sources.  The embedding types each
field by the shapes the Python code distinguishes:

  - `assignees`: a JSON list (the code only tests `len > 0`);
  - `labels`: each element is either a dict with an optional `name` key, a
    bare string, or something else (skipped by the normalization loop);
  - `comments`: either an integer or a list (normalized to its length);
  - `createdAt` / `updatedAt`: an ISO date string.  The code parses it with
    `datetime.fromisoformat` and falls back to `days = 0` on a parse error;
    a missing key or falsy value (`None`, `""`) selects the fallback chain
    `issue.get("updatedAt") or issue.get("createdAt", "")`.  The embedding
    keeps the parsed result: `stamp t` is a parseable date with UTC
    timestamp `t` in seconds, `malformed` a present-but-unparseable string,
    `missing` an absent or falsy value.

Timestamps are integers (seconds); `daysBetween` mirrors
`(now - parsed).days`, which floor-divides the timedelta by 86400 seconds.
-/

inductive LabelVal where
  | dict (name : Option String)
  | str (s : String)
  | other
deriving Repr, DecidableEq

inductive CommentsVal where
  | num (n : Int)
  | lst (elems : List Unit)
deriving Repr, DecidableEq

inductive DateVal where
  | missing
  | malformed
  | stamp (t : Int)
deriving Repr, DecidableEq

structure IssueRec where
  assignees : List String
  labels : List LabelVal
  createdAt : DateVal
  updatedAt : DateVal
  comments : CommentsVal
deriving Repr, DecidableEq

structure ScoreResult where
  cvs : Int
  cvsTier : String
  dataCompleteness : String
deriving Repr, DecidableEq

/-- `(now - t).days` for UTC datetimes `now`, `t` given as second
timestamps: Python's `timedelta.days` floor-divides by one day. -/
def daysBetween (now t : Int) : Int :=
  Int.fdiv (now - t) 86400

/-- `issue.get("updatedAt") or issue.get("createdAt", "")`: a missing or
falsy `updatedAt` falls back to the `createdAt` value. -/
def effectiveUpdatedAt (u c : DateVal) : DateVal :=
  match u with
  | .missing => c
  | x => x

/-- Days since a date value: 0 when the string was missing or failed to
parse (the `except (ValueError, AttributeError)` branches). -/
def daysSinceVal (now : Int) : DateVal → Int
  | .stamp t => daysBetween now t
  | _ => 0

/-- `comments = len(comments) if isinstance(comments, list) else comments`. -/
def commentCount : CommentsVal → Int
  | .num n => n
  | .lst elems => (elems.length : Int)

/-- One step of the label-normalization loop: dict labels contribute
`label.get("name", "").lower()`, strings contribute `label.lower()`, other
shapes are skipped. -/
def labelName : LabelVal → Option String
  | .dict name => some (lowerAscii (name.getD ""))
  | .str s => some (lowerAscii s)
  | .other => none

def labelNames (labels : List LabelVal) : List String :=
  labels.filterMap labelName

/-- The score-to-tier mapping block (`>= 80 → go`, `>= 60 → likely`,
`>= 40 → maybe`, `>= 20 → risky`, else `skip`). -/
def tierOf (score : Int) : String :=
  if score ≥ 80 then "go"
  else if score ≥ 60 then "likely"
  else if score ≥ 40 then "maybe"
  else if score ≥ 20 then "risky"
  else "skip"

/-- `score_issue_fallback` from backend/helpers/oss_helpers.py. -/
def score_issue_fallback (now : Int) (issue : IssueRec) : ScoreResult :=
  if issue.assignees.length > 0 then
    ⟨0, "skip", "partial"⟩
  else
    let days_since_update :=
      daysSinceVal now (effectiveUpdatedAt issue.updatedAt issue.createdAt)
    let days_since_creation := daysSinceVal now issue.createdAt
    let score : Int := 50
    let score := if days_since_update > 90 then score - 30 else score
    let score :=
      if commentCount issue.comments = 0 ∧ days_since_creation > 14 then
        score - 10
      else score
    let score :=
      if (labelNames issue.labels).contains "good first issue" then
        score + 20
      else score
    let score := max 0 (min 100 score)
    ⟨score, tierOf score, "partial"⟩

/-- The scoring algorithm as the spec states it (§4.3 steps 1-7), written
from the spec's words to compare against `score_issue_fallback`: immediate
skip on a non-empty assignee list, base 50, stale penalty 30, untriaged
penalty 10, good-first-issue boost 20, clamp to [0, 100], then the tier
thresholds 80 / 60 / 40 / 20. -/
def score_issue_spec (now : Int) (issue : IssueRec) : ScoreResult :=
  if issue.assignees ≠ [] then ⟨0, "skip", "partial"⟩
  else
    let base : Int := 50
    let s1 :=
      if daysSinceVal now (effectiveUpdatedAt issue.updatedAt issue.createdAt) > 90
      then base - 30 else base
    let s2 :=
      if commentCount issue.comments = 0 ∧ daysSinceVal now issue.createdAt > 14
      then s1 - 10 else s1
    let s3 :=
      if (labelNames issue.labels).contains "good first issue"
      then s2 + 20 else s2
    let clamped := if s3 < 0 then 0 else if s3 > 100 then 100 else s3
    ⟨clamped, tierOf clamped, "partial"⟩

/-! ## GO-tier notification gate (backend/routes/oss_routes.py)

`_notified_go_issues` is a process-lifetime set of issue-id strings.  The
gate in `_fetch_repo_issues_fallback` reads the score attached to the issue
being processed:

    if score_data["cvs"] >= 85 and issue_id not in _notified_go_issues:
        _notified_go_issues.add(issue_id)
        notify_go_tier_issue(...)

The embedding takes the gate's score input as a parameter (the route's
tests exercise it the same way, injecting scores through the scorer seam).
-/

structure NotifyGateResult where
  fired : Bool
  notified : List String
deriving Repr, DecidableEq

def go_notify_gate (notified : List String) (issue_id : String) (cvs : Int) :
    NotifyGateResult :=
  if cvs ≥ 85 ∧ issue_id ∉ notified then
    ⟨true, issue_id :: notified⟩
  else
    ⟨false, notified⟩

/-! ## Response cache (backend/services/cache.py)

The cache stores one JSON file per key under `.cache/`; each file holds the
write timestamp and the data.  The embedding keys the store by the cache
key itself (one entry per key; `set_cached` overwrites the key's file).
`enabled` models `CACHE_DISABLED != "1"`; `ttl` models the environment-
selected effective TTL returned by `_get_ttl()`; `get_cached` additionally
accepts the per-call `ttl` override parameter. -/

structure CacheEntry where
  timestamp : Int
  data : String
deriving Repr, DecidableEq

structure CacheConfig where
  enabled : Bool
  ttl : Int
deriving Repr, DecidableEq

abbrev CacheStore := List (String × CacheEntry)

/-- `get_cached(cache_key, ttl)`: absent when caching is disabled, when the
key's file is missing, or when `now - timestamp` reaches the effective TTL;
otherwise the stored data verbatim. -/
def get_cached (cfg : CacheConfig) (st : CacheStore) (key : String)
    (ttlOverride : Option Int) (now : Int) : Option String :=
  if cfg.enabled = false then none
  else
    match st.lookup key with
    | none => none
    | some entry =>
      let effective_ttl := ttlOverride.getD cfg.ttl
      if now - entry.timestamp < effective_ttl then some entry.data else none

/-- `set_cached(cache_key, data)`: a no-op when caching is disabled,
otherwise overwrite the key's file with the data and the current time. -/
def set_cached (cfg : CacheConfig) (st : CacheStore) (key : String)
    (data : String) (now : Int) : CacheStore :=
  if cfg.enabled = false then st
  else (key, ⟨now, data⟩) :: st.filter (fun kv => kv.1 != key)

/-! ## Local watchlist store

The routes and the repository's tests call `get_local_watchlist`,
`add_to_local_watchlist(owner, repo)` and
`remove_from_local_watchlist(owner, repo)` on `OSSService`, but these
methods are not present in the source tree (backend/services/oss_service.py
stops at the aggregator watchlist stubs), so the store is modelled from the
spec. -/

structure WatchlistEntry where
  owner : String
  repo : String
  slug : String
  added_at : String
deriving Repr, DecidableEq

/-- Modelled from the spec: `add_to_local_watchlist` is missing from
src (only its callers in backend/routes/oss_routes.py and its tests
exist).  Per spec §4.2 and §3, adding an existing `(owner, repo)` pair is a
no-op, and a new pair is stored with owner and repo as separate fields and
`slug = owner + "-" + repo`. -/
def add_to_local_watchlist (st : List WatchlistEntry) (owner repo : String)
    (now : String) : List WatchlistEntry :=
  if st.any (fun e => e.owner == owner && e.repo == repo) then st
  else st ++ [⟨owner, repo, owner ++ "-" ++ repo, now⟩]

/-- Entries of a watchlist for one `(owner, repo)` pair. -/
def watchlistEntriesFor (st : List WatchlistEntry) (owner repo : String) :
    List WatchlistEntry :=
  st.filter (fun e => e.owner == owner && e.repo == repo)

/-! ## Assignment tracker and fork-and-assign
(backend/services/oss_service.py, backend/routes/oss_routes.py)

`assignments.json` is an append-only list.  `api_oss_fork_and_assign`
consults external state only through gh CLI calls; the embedding packages
the results those calls would return into `ForkAssignEnv`:

  - `fork_exists`: the `check_fork_exists` probe;
  - `fork_result`: the `repo fork` command (consulted only when the fork
    does not exist yet);
  - `wait_ok`: the `wait_for_fork` bounded poll;
  - `sync_result`: the `repo sync` command — the route discards this
    result, so the field is never read;
  - `create_result`: the `issue create` command, whose output is the fork
    issue URL;
  - `assign_result`: the `issue edit --add-assignee @Copilot` command —
    the route discards this result, so the field is never read.

`save_assignment` calls `int(fork_issue_number)`, which raises on a
non-numeric string; the embedding returns `none` for that uncaught
exception.  The dossier lookup and the agent-context body only feed the
created issue's text and are summarized by `create_result`. -/

structure GhResult where
  success : Bool
  output : String
  error : String
deriving Repr, DecidableEq

structure Assignment where
  origin_slug : String
  repo : String
  issue_number : Int
  fork_issue_number : Int
  fork_issue_url : String
  assigned_at : String
deriving Repr, DecidableEq

/-- `find_assignment(origin_slug, issue_number)`: first record matching the
dedup key, scanning in order. -/
def find_assignment (st : List Assignment) (origin_slug : String)
    (issue_number : Int) : Option Assignment :=
  st.find? (fun a => a.origin_slug == origin_slug && a.issue_number == issue_number)

/-- `save_assignment`: append the record, with
`origin_slug = f"{origin_owner}/{repo}"` and the fork issue number parsed
by `int(...)` (none models the ValueError the parse would raise). -/
def save_assignment (st : List Assignment) (origin_owner repo : String)
    (issue_number : Int) (fork_issue_number : String) (fork_issue_url : String)
    (now : String) : Option (List Assignment) :=
  match pyInt? fork_issue_number with
  | none => none
  | some n =>
      some (st ++ [⟨origin_owner ++ "/" ++ repo, repo, issue_number, n,
                    fork_issue_url, now⟩])

structure ForkAssignEnv where
  fork_exists : Bool
  fork_result : GhResult
  wait_ok : Bool
  sync_result : GhResult
  create_result : GhResult
  assign_result : GhResult
  now : String
deriving Repr, DecidableEq

structure ForkAssignResponse where
  success : Bool
  fork_issue_url : Option String
  already_assigned : Bool
  error : Option String
deriving Repr, DecidableEq

/-- `api_oss_fork_and_assign` (backend/routes/oss_routes.py): dedup guard,
fork if needed, bounded wait, sync (result ignored), create the context
issue on the fork, assign Copilot (result ignored), then persist the
Assignment.  Returns the HTTP payload and the new assignments collection;
`none` models an uncaught exception. -/
def api_oss_fork_and_assign (env : ForkAssignEnv) (st : List Assignment)
    (origin_owner repo : String) (issue_number : Int) :
    Option (ForkAssignResponse × List Assignment) :=
  let origin_slug := origin_owner ++ "/" ++ repo
  match find_assignment st origin_slug issue_number with
  | some existing =>
      some (⟨true, some existing.fork_issue_url, true, none⟩, st)
  | none =>
    if env.fork_exists = false ∧ env.fork_result.success = false then
      some (⟨false, none, false,
             some ("Failed to fork: " ++ env.fork_result.error)⟩, st)
    else if env.wait_ok = false then
      some (⟨false, none, false, some "Fork creation timed out"⟩, st)
    else if env.create_result.success = false then
      some (⟨false, none, false,
             some ("Failed to create issue: " ++ env.create_result.error)⟩, st)
    else
      let fork_issue_url := stripWs env.create_result.output
      let fork_issue_number := (splitOnChar '/' fork_issue_url).getLastD ""
      match save_assignment st origin_owner repo issue_number
          fork_issue_number fork_issue_url env.now with
      | none => none
      | some st2 => some (⟨true, some fork_issue_url, false, none⟩, st2)

/-- Records of an assignments collection matching one dedup key. -/
def assignmentsFor (st : List Assignment) (origin_slug : String)
    (issue_number : Int) : List Assignment :=
  st.filter (fun a => a.origin_slug == origin_slug && a.issue_number == issue_number)

/-! ## Submitted-PR records and the polling engine
(backend/services/oss_service.py, backend/routes/oss_routes.py)

`save_submitted_pr` appends a literal dict to `submitted-prs.json`; the
embedding keeps that record as an explicit key/value list so the exact set
of keys the code writes is visible.  The polling engine reads records
through `.get`, so it tolerates missing keys; its records are embedded as a
structure whose optional fields read as `none` when the key is absent. -/

inductive JVal where
  | str (s : String)
  | num (n : Int)
  | null
deriving Repr, DecidableEq

/-- `save_submitted_pr(origin_slug, pr_url, title)`: the record appended to
the submitted-PRs collection, exactly the keys the code writes. -/
def save_submitted_pr (origin_slug pr_url title now : String) :
    List (String × JVal) :=
  [("origin_slug", .str origin_slug),
   ("pr_url", .str pr_url),
   ("title", .str title),
   ("state", .str "open"),
   ("submitted_at", .str now)]

structure SubmittedPR where
  origin_slug : String
  pr_url : String
  title : String
  state : String
  review_decision : Option String
  merged_at : Option String
  closed_at : Option String
  last_polled_at : Option String
deriving Repr, DecidableEq

/-- The JSON the `pr view --json state,reviewDecision,mergedAt,closedAt`
probe parses to (each key read through `.get`). -/
structure PollGhData where
  state : Option String
  reviewDecision : Option String
  mergedAt : Option String
  closedAt : Option String
deriving Repr, DecidableEq

inductive NotifyEvent where
  | upstream_merged (origin_slug pr_url title : String)
  | upstream_feedback (origin_slug pr_url decision : String)
deriving Repr, DecidableEq

/-- `_poll_single_pr(pr)`: terminal-state short-circuit, URL parse, remote
probe, state mapping and notification diff.  The remote probe is a
function from the PR URL to the parsed probe result; `none` covers both a
failed gh command and unparseable output (`return pr` in either case).
Returns the updated record and the notifications emitted. -/
def poll_single_pr (probe : String → Option PollGhData) (pr : SubmittedPR)
    (polled_at : String) : SubmittedPR × List NotifyEvent :=
  if pr.state ≠ "open" then (pr, [])
  else
    let parts := splitOnChar '/' (rstripChar '/' pr.pr_url)
    if parts.length < 4 then (pr, [])
    else
      match probe pr.pr_url with
      | none => (pr, [])
      | some gh =>
        let old_state := pr.state
        let old_review := pr.review_decision
        let new_state := upperAscii (gh.state.getD "OPEN")
        let mapped :=
          if new_state = "MERGED" then "merged"
          else if new_state = "CLOSED" then "closed"
          else "open"
        let pr2 : SubmittedPR :=
          { pr with
            state := mapped
            review_decision := gh.reviewDecision
            merged_at := gh.mergedAt
            closed_at := gh.closedAt
            last_polled_at := some polled_at }
        let mergedEvents :=
          if old_state = "open" ∧ mapped = "merged" then
            [NotifyEvent.upstream_merged pr.origin_slug pr.pr_url pr.title]
          else []
        let feedbackEvents :=
          match gh.reviewDecision with
          | some d =>
              if some d ≠ old_review ∧ d ≠ "" ∧
                  (d = "CHANGES_REQUESTED" ∨ d = "APPROVED") then
                [NotifyEvent.upstream_feedback pr.origin_slug pr.pr_url d]
              else []
          | none => []
        (pr2, mergedEvents ++ feedbackEvents)

/-- `api_oss_poll_submitted_prs`: partition on `state == "open"`, probe the
open records, rewrite the collection as updated-open ++ already-terminal.
Returns the rewritten collection and all emitted notifications. -/
def api_oss_poll_submitted_prs (probe : String → Option PollGhData)
    (items : List SubmittedPR) (polled_at : String) :
    List SubmittedPR × List NotifyEvent :=
  if items = [] then ([], [])
  else
    let open_prs := items.filter (fun pr => pr.state == "open")
    let closed_prs := items.filter (fun pr => pr.state != "open")
    if open_prs = [] then (items, [])
    else
      let polled := open_prs.map (fun pr => poll_single_pr probe pr polled_at)
      (polled.map Prod.fst ++ closed_prs, (polled.map Prod.snd).flatten)

/-! ## Agent context builder (backend/services/oss_service.py)

`build_agent_context` consults gh twice (origin issue body; CONTRIBUTING.md
— the latter only when no dossier was supplied); those results form
`ContextEnv`.  `original_body = none` covers a failed issue-view command, a
parse failure, or a missing `body` key (all yield the default text);
`contrib_text = ""` covers every path on which no CONTRIBUTING.md content
was obtained. -/

structure Quirk where
  quirkType : String
  description : String
  impact : String
  evidence : Option String
deriving Repr, DecidableEq

structure Dossier where
  contributionRules : Option String
  successPatterns : Option String
  detectedQuirks : List Quirk
deriving Repr, DecidableEq

structure ContextEnv where
  original_body : Option String
  contrib_text : String
deriving Repr, DecidableEq

/-- `build_agent_context(origin_owner, repo, issue_number, issue_title,
issue_url, dossier)`: the markdown body handed to the agent.  Mirrors the
source: the base template, then a Contribution Rules section from the
dossier (falling back to a truncated CONTRIBUTING.md extract when there is
no dossier), then a success-patterns section.  The source never reads the
dossier's quirks. -/
def build_agent_context (env : ContextEnv) (origin_owner repo : String)
    (issue_number : Int) (issue_title issue_url : String)
    (dossier : Option Dossier) : String :=
  let original_body := env.original_body.getD "*No description provided.*"
  let contrib_text :=
    match dossier with
    | some _ => ""
    | none => env.contrib_text
  let body :=
    "## Upstream Issue\n**Repository:** [" ++ origin_owner ++ "/" ++ repo ++
    "](https://github.com/" ++ origin_owner ++ "/" ++ repo ++
    ")\n**Issue:** [#" ++ toString issue_number ++ ": " ++ issue_title ++
    "](" ++ issue_url ++ ")\n\n### Original Issue Description\n" ++
    original_body ++
    "\n\n---\n## Instructions\nFix the issue described above. " ++
    "Your changes will be submitted as a PR to `" ++ origin_owner ++ "/" ++
    repo ++ "`.\n\n**Important:**\n" ++
    "- Follow the upstream repo's coding style and conventions\n" ++
    "- Keep changes minimal and focused\n" ++
    "- Write clear commit messages\n" ++
    "- Add tests if the repo has a test suite\n"
  let rules := (dossier.map (fun d => d.contributionRules.getD "")).getD ""
  let patterns := (dossier.map (fun d => d.successPatterns.getD "")).getD ""
  let body :=
    if rules ≠ "" then
      body ++ "\n---\n## Contribution Rules\n" ++ rules ++ "\n"
    else if contrib_text ≠ "" then
      body ++ "\n---\n## CONTRIBUTING.md\n<details><summary>Expand</summary>\n\n" ++
      contrib_text.take 3000 ++ "\n\n</details>\n"
    else body
  let body :=
    if patterns ≠ "" then
      body ++ "\n---\n## What Successful PRs Look Like\n" ++ patterns ++ "\n"
    else body
  body

/-! ## Concrete inputs for the spec §8 scoring examples -/

/-- A reference clock; any value works, the scorer only uses differences. -/
def nowT : Int := 10000000000

/-- `{assignees: [], labels: [], createdAt: now, updatedAt: now, comments: 1}`. -/
def exampleFresh : IssueRec := ⟨[], [], .stamp nowT, .stamp nowT, .num 1⟩

/-- The fresh example plus a `"good first issue"` label. -/
def exampleGfi : IssueRec :=
  ⟨[], [.dict (some "good first issue")], .stamp nowT, .stamp nowT, .num 1⟩

/-- The fresh example with `updatedAt` 91 days ago. -/
def exampleStale : IssueRec :=
  ⟨[], [], .stamp nowT, .stamp (nowT - 91 * 86400), .num 1⟩

/-- Stale and never triaged: both dates 91 days ago, zero comments. -/
def exampleStaleUntriaged : IssueRec :=
  ⟨[], [], .stamp (nowT - 91 * 86400), .stamp (nowT - 91 * 86400), .num 0⟩

/-- An assigned issue with otherwise high-scoring fields. -/
def exampleAssigned : IssueRec :=
  ⟨["someone"], [.str "Good First Issue"], .stamp nowT, .stamp nowT, .num 9⟩

/-! ## Theorems -/

theorem clampEq (s : Int) :
    max 0 (min 100 s) = if s < 0 then 0 else if s > 100 then 100 else s := by
  split_ifs <;> omega

/-- Claim C3: the heuristic scorer implements exactly the specified
algorithm — `score_issue_fallback` agrees with the step-by-step spec
algorithm `score_issue_spec` on every issue record, and the four fixed
example inputs of spec §8 score to (50, maybe), (70, likely), (20, risky)
and (10, skip); any non-empty assignee list scores (0, skip). -/
theorem claim_C3_scorer_matches_spec :
    (∀ (now : Int) (issue : IssueRec),
        score_issue_fallback now issue = score_issue_spec now issue) ∧
    score_issue_fallback nowT exampleFresh = ⟨50, "maybe", "partial"⟩ ∧
    score_issue_fallback nowT exampleGfi = ⟨70, "likely", "partial"⟩ ∧
    score_issue_fallback nowT exampleStale = ⟨20, "risky", "partial"⟩ ∧
    score_issue_fallback nowT exampleStaleUntriaged = ⟨10, "skip", "partial"⟩ ∧
    score_issue_fallback nowT exampleAssigned = ⟨0, "skip", "partial"⟩ := by
  refine ⟨?_, by decide, by decide, by decide, by decide, by decide⟩
  intro now issue
  rcases issue with ⟨assignees, labels, ca, ua, cm⟩
  cases assignees with
  | nil => simp [score_issue_fallback, score_issue_spec, clampEq]
  | cons a rest => simp [score_issue_fallback, score_issue_spec]

set_option maxHeartbeats 1000000 in
/-- Claim C10: the heuristic fallback scorer only ever returns a cvs in
the set 0, 10, 20, 30, 40, 50, 60, 70; in particular the score never
exceeds 70, the tier is never "go", and the fallback path's go-tier
notification gate (cvs >= 85) can never fire on a score the fallback
scorer produced. -/
theorem claim_C10_fallback_score_bounded :
    ∀ (now : Int) (issue : IssueRec) (notified : List String) (id : String),
    (score_issue_fallback now issue).cvs ∈ ([0, 10, 20, 30, 40, 50, 60, 70] : List Int) ∧
    (score_issue_fallback now issue).cvs ≤ 70 ∧
    (score_issue_fallback now issue).cvsTier ≠ "go" ∧
    (go_notify_gate notified id (score_issue_fallback now issue).cvs).fired = false := by
  intro now issue notified id
  by_cases ha : issue.assignees.length > 0 <;>
  by_cases hu : daysSinceVal now (effectiveUpdatedAt issue.updatedAt issue.createdAt) > 90 <;>
  by_cases hc : commentCount issue.comments = 0 ∧ daysSinceVal now issue.createdAt > 14 <;>
  by_cases hl : "good first issue" ∈ labelNames issue.labels <;>
  simp [score_issue_fallback, go_notify_gate, tierOf, ha, hu, hc, hl]

/-- Claim C5: after `set` at time T, `get` returns the stored value
unchanged at any time strictly before T + ttl, reports absent at any time
at or after T + ttl, and reports absent for a key that was never set. -/
theorem claim_C5_cache_ttl_boundary (cfg : CacheConfig) (st : CacheStore)
    (key data : String) (ttlOverride : Option Int) (tSet tGet : Int)
    (hEnabled : cfg.enabled = true) :
    (tGet - tSet < ttlOverride.getD cfg.ttl →
      get_cached cfg (set_cached cfg st key data tSet) key ttlOverride tGet = some data) ∧
    (tGet - tSet ≥ ttlOverride.getD cfg.ttl →
      get_cached cfg (set_cached cfg st key data tSet) key ttlOverride tGet = none) ∧
    (st.lookup key = none → get_cached cfg st key ttlOverride tGet = none) := by
  refine ⟨?_, ?_, ?_⟩
  · intro h
    simp [get_cached, set_cached, hEnabled, List.lookup, h]
  · intro h
    simp [get_cached, set_cached, hEnabled, List.lookup]
    omega
  · intro h
    simp [get_cached, hEnabled, h]

/-- Witness for C5: with a 300-second TTL, a value set at time 1000 is
returned at time 1100, absent at time 1300, and a never-set key reads
absent. -/
theorem claim_C5_witness :
    get_cached ⟨true, 300⟩ (set_cached ⟨true, 300⟩ [] "k" "v" 1000) "k" none 1100 = some "v" ∧
    get_cached ⟨true, 300⟩ (set_cached ⟨true, 300⟩ [] "k" "v" 1000) "k" none 1300 = none ∧
    get_cached ⟨true, 300⟩ [] "k" none 1100 = none := by
  refine ⟨(claim_C5_cache_ttl_boundary ⟨true, 300⟩ [] "k" "v" none 1000 1100 rfl).1 (by decide),
          (claim_C5_cache_ttl_boundary ⟨true, 300⟩ [] "k" "v" none 1000 1300 rfl).2.1 (by decide),
          (claim_C5_cache_ttl_boundary ⟨true, 300⟩ [] "k" "v" none 1000 1100 rfl).2.2 (by decide)⟩

/-- Claim C6: adding an `(owner, repo)` pair to the watchlist twice yields
exactly one entry for that pair, with `slug = owner + "-" + repo` and owner
and repo stored as separate fields; the second add is a no-op, so the
collection grows by exactly one entry. -/
theorem claim_C6_watchlist_add_idempotent (st : List WatchlistEntry)
    (owner repo t1 t2 : String)
    (hfresh : watchlistEntriesFor st owner repo = []) :
    watchlistEntriesFor
      (add_to_local_watchlist (add_to_local_watchlist st owner repo t1) owner repo t2)
      owner repo = [⟨owner, repo, owner ++ "-" ++ repo, t1⟩] ∧
    (add_to_local_watchlist (add_to_local_watchlist st owner repo t1) owner repo t2).length =
      st.length + 1 := by
  have hnone : st.any (fun e => e.owner == owner && e.repo == repo) = false := by
    rw [List.any_eq_false]
    intro e he hp
    have hmem : e ∈ st.filter (fun e => e.owner == owner && e.repo == repo) :=
      List.mem_filter.mpr ⟨he, hp⟩
    rw [watchlistEntriesFor] at hfresh
    simp [hfresh] at hmem
  have h1 : add_to_local_watchlist st owner repo t1 =
      st ++ [⟨owner, repo, owner ++ "-" ++ repo, t1⟩] := by
    simp [add_to_local_watchlist, hnone]
  have h2 : add_to_local_watchlist (st ++ [⟨owner, repo, owner ++ "-" ++ repo, t1⟩]) owner repo t2 =
      st ++ [⟨owner, repo, owner ++ "-" ++ repo, t1⟩] := by
    simp [add_to_local_watchlist]
  rw [h1, h2]
  constructor
  · rw [watchlistEntriesFor, List.filter_append]
    rw [watchlistEntriesFor] at hfresh
    simp [hfresh]
  · simp

/-- Witness for C6: adding ("vercel", "next.js") twice to an empty
watchlist yields a length-1 watchlist whose single entry has slug
"vercel-next.js". -/
theorem claim_C6_witness :
    watchlistEntriesFor
      (add_to_local_watchlist (add_to_local_watchlist [] "vercel" "next.js" "t1")
        "vercel" "next.js" "t2") "vercel" "next.js" =
      [⟨"vercel", "next.js", "vercel-next.js", "t1"⟩] ∧
    (add_to_local_watchlist (add_to_local_watchlist [] "vercel" "next.js" "t1")
      "vercel" "next.js" "t2").length = 1 := by
  have h := claim_C6_watchlist_add_idempotent [] "vercel" "next.js" "t1" "t2" (by decide)
  exact ⟨h.1, h.2⟩

/-- Claim C7: the go-tier notification gate fires exactly once per issue
identity per process lifetime — when the score reaches the 85 threshold
and the issue id has not been notified yet, the gate fires and records the
id; any later pass over the same id (at any score) fires nothing and
leaves the notified set unchanged. -/
theorem claim_C7_go_notification_once (notified : List String)
    (issue_id : String) (cvs : Int)
    (hcvs : cvs ≥ 85) (hnew : issue_id ∉ notified) :
    (go_notify_gate notified issue_id cvs).fired = true ∧
    (go_notify_gate notified issue_id cvs).notified = issue_id :: notified ∧
    ∀ cvs2 : Int,
      (go_notify_gate (go_notify_gate notified issue_id cvs).notified issue_id cvs2).fired = false ∧
      (go_notify_gate (go_notify_gate notified issue_id cvs).notified issue_id cvs2).notified =
        (go_notify_gate notified issue_id cvs).notified := by
  simp [go_notify_gate, hcvs, hnew]

/-- Witness for C7: a fresh issue id scored 92 fires the notification on
the first pass and not on the second. -/
theorem claim_C7_witness :
    (92 : Int) ≥ 85 ∧ "github-org-repo-99" ∉ ([] : List String) ∧
    (go_notify_gate [] "github-org-repo-99" 92).fired = true ∧
    (go_notify_gate (go_notify_gate [] "github-org-repo-99" 92).notified
      "github-org-repo-99" 92).fired = false := by
  refine ⟨by decide, by simp, ?_, ?_⟩
  · exact (claim_C7_go_notification_once [] "github-org-repo-99" 92 (by decide) (by simp)).1
  · exact ((claim_C7_go_notification_once [] "github-org-repo-99" 92 (by decide) (by simp)).2.2 92).1

theorem find_assignment_append_fresh (st : List Assignment) (slug : String) (n : Int)
    (a : Assignment) (hfresh : find_assignment st slug n = none)
    (ha : a.origin_slug = slug) (hn : a.issue_number = n) :
    find_assignment (st ++ [a]) slug n = some a := by
  unfold find_assignment at *
  rw [List.find?_append, hfresh]
  simp [List.find?, ha, hn]

theorem assignmentsFor_append_fresh (st : List Assignment) (slug : String) (n : Int)
    (a : Assignment) (hfresh : find_assignment st slug n = none)
    (ha : a.origin_slug = slug) (hn : a.issue_number = n) :
    assignmentsFor (st ++ [a]) slug n = [a] := by
  unfold find_assignment at hfresh
  unfold assignmentsFor
  rw [List.filter_append]
  have hnil : st.filter (fun x => x.origin_slug == slug && x.issue_number == n) = [] := by
    rw [List.filter_eq_nil_iff]
    intro x hx
    have hpred := List.find?_eq_none.mp hfresh x hx
    simpa using hpred
  rw [hnil]
  simp [ha, hn]

/-- Claim C1: fork-and-assign is idempotent on its dedup key — when the
key was fresh and the first call succeeds, the collection holds exactly
one Assignment for the key, and the second call leaves the collection
unchanged and returns success with already_assigned and the same
fork_issue_url as the first call. -/
theorem claim_C1_fork_and_assign_idempotent (env : ForkAssignEnv)
    (st : List Assignment) (oo repo : String) (n : Int)
    (r1 : ForkAssignResponse) (st1 : List Assignment)
    (hfresh : find_assignment st (oo ++ "/" ++ repo) n = none)
    (h1 : api_oss_fork_and_assign env st oo repo n = some (r1, st1))
    (hs : r1.success = true) :
    ∃ r2 : ForkAssignResponse,
      api_oss_fork_and_assign env st1 oo repo n = some (r2, st1) ∧
      r2.success = true ∧ r2.already_assigned = true ∧
      r2.fork_issue_url = r1.fork_issue_url ∧
      (assignmentsFor st1 (oo ++ "/" ++ repo) n).length = 1 := by
  simp only [api_oss_fork_and_assign, hfresh] at h1
  split_ifs at h1 with hfork hwait hcreate
  · cases Option.some.inj h1
    simp at hs
  · cases Option.some.inj h1
    simp at hs
  · cases Option.some.inj h1
    simp at hs
  · rcases hp : pyInt? ((splitOnChar '/' (stripWs env.create_result.output)).getLastD "") with _ | k
    · simp only [save_assignment, hp] at h1
      exact absurd h1 (by simp)
    · simp only [save_assignment, hp] at h1
      cases Option.some.inj h1
      refine ⟨⟨true, some (stripWs env.create_result.output), true, none⟩, ?_, rfl, rfl, rfl, ?_⟩
      · simp only [api_oss_fork_and_assign,
          find_assignment_append_fresh st (oo ++ "/" ++ repo) n
            ⟨oo ++ "/" ++ repo, repo, n, k, stripWs env.create_result.output, env.now⟩
            hfresh rfl rfl]
      · rw [assignmentsFor_append_fresh st (oo ++ "/" ++ repo) n
            ⟨oo ++ "/" ++ repo, repo, n, k, stripWs env.create_result.output, env.now⟩
            hfresh rfl rfl]
        rfl

/-- An environment where every remote step succeeds; the created fork
issue URL carries a trailing newline as the gh CLI emits it. -/
def envC1 : ForkAssignEnv :=
  ⟨true, ⟨true, "", ""⟩, true, ⟨true, "", ""⟩,
   ⟨true, "https://github.com/testuser/fastify/issues/7\n", ""⟩, ⟨true, "", ""⟩, "t0"⟩

def respC1 : ForkAssignResponse :=
  ⟨true, some "https://github.com/testuser/fastify/issues/7", false, none⟩

def stC1 : List Assignment :=
  [⟨"fastify/fastify", "fastify", 42, 7, "https://github.com/testuser/fastify/issues/7", "t0"⟩]

/-- Witness for C1: a concrete successful first call, then the second call
hits the dedup guard. -/
theorem claim_C1_witness :
    ∃ r2 : ForkAssignResponse,
      api_oss_fork_and_assign envC1 stC1 "fastify" "fastify" 42 = some (r2, stC1) ∧
      r2.success = true ∧ r2.already_assigned = true ∧
      r2.fork_issue_url = respC1.fork_issue_url ∧
      (assignmentsFor stC1 ("fastify" ++ "/" ++ "fastify") 42).length = 1 :=
  claim_C1_fork_and_assign_idempotent envC1 [] "fastify" "fastify" 42 respC1 stC1
    (by decide) (by decide) rfl

/-- An environment where the sync step and the Copilot-assign step both
fail while fork, wait and issue creation succeed. -/
def envC2fail : ForkAssignEnv :=
  ⟨true, ⟨true, "", ""⟩, true, ⟨false, "", "sync failed"⟩,
   ⟨true, "https://github.com/u/r/issues/3", ""⟩, ⟨false, "", "assign failed"⟩, "t0"⟩

/-- Counterexample to C2 as stated: with the agent-assign step (step 7)
and the sync step (step 4) failing, fork-and-assign still returns success
and writes an Assignment record — the route discards both results, so a
step 2-7 failure does not always return an error with the collection
unchanged. -/
theorem claim_C2_counterexample :
    envC2fail.assign_result.success = false ∧
    envC2fail.sync_result.success = false ∧
    api_oss_fork_and_assign envC2fail [] "o" "r" 5 =
      some (⟨true, some "https://github.com/u/r/issues/3", false, none⟩,
            [⟨"o/r", "r", 5, 3, "https://github.com/u/r/issues/3", "t0"⟩]) :=
  ⟨rfl, rfl, by decide⟩

/-- Claim C2 (amended): after the dedup guard passes, a failure of the
fork step, the fork-readiness wait, or the fork-issue creation returns an
error and leaves the assignments collection exactly what it was; sync and
agent-assign failures are ignored by the route and do not abort. -/
theorem claim_C2_no_partial_record_amended (env : ForkAssignEnv)
    (st : List Assignment) (oo repo : String) (n : Int)
    (hfresh : find_assignment st (oo ++ "/" ++ repo) n = none)
    (hfail : (env.fork_exists = false ∧ env.fork_result.success = false) ∨
             env.wait_ok = false ∨ env.create_result.success = false) :
    ∃ r : ForkAssignResponse,
      api_oss_fork_and_assign env st oo repo n = some (r, st) ∧ r.success = false := by
  simp only [api_oss_fork_and_assign, hfresh]
  split_ifs with h1 h2 h3
  · exact ⟨_, rfl, rfl⟩
  · exact ⟨_, rfl, rfl⟩
  · exact ⟨_, rfl, rfl⟩
  · tauto

/-- An environment where the fork-issue creation step fails. -/
def envC2create : ForkAssignEnv :=
  ⟨true, ⟨true, "", ""⟩, true, ⟨true, "", ""⟩, ⟨false, "", "boom"⟩, ⟨true, "", ""⟩, "t0"⟩

/-- Witness for the amended C2: a failed issue-create step yields an error
response and an unchanged (empty) collection. -/
theorem claim_C2_witness :
    envC2create.create_result.success = false ∧
    ∃ r : ForkAssignResponse,
      api_oss_fork_and_assign envC2create [] "o" "r" 5 = some (r, []) ∧ r.success = false :=
  ⟨rfl, claim_C2_no_partial_record_amended envC2create [] "o" "r" 5 (by decide)
    (Or.inr (Or.inr (by decide)))⟩

/-- Claim C4: SubmittedPR state is monotonic under polling — a record in a
terminal state (merged or closed) is returned unchanged by the per-PR poll
for every possible remote probe (so no probe result can revert it, and the
probe is irrelevant to it); a poll cycle keeps every terminal record in
the rewritten collection, and when open records exist the rewritten
collection is exactly the polled open entries followed by the untouched
terminal entries. -/
theorem claim_C4_poll_state_monotonic :
    ∀ (probe : String → Option PollGhData) (items : List SubmittedPR)
      (pr : SubmittedPR) (t : String),
    ((pr.state = "merged" ∨ pr.state = "closed") → poll_single_pr probe pr t = (pr, [])) ∧
    (pr ∈ items → (pr.state = "merged" ∨ pr.state = "closed") →
      pr ∈ (api_oss_poll_submitted_prs probe items t).1) ∧
    (items ≠ [] → items.filter (fun q => q.state == "open") ≠ [] →
      (api_oss_poll_submitted_prs probe items t).1 =
        (items.filter (fun q => q.state == "open")).map (fun q => (poll_single_pr probe q t).1) ++
        items.filter (fun q => q.state != "open")) := by
  intro probe items pr t
  refine ⟨?_, ?_, ?_⟩
  · intro h
    rcases h with h | h <;> simp [poll_single_pr, h]
  · intro hmem h
    by_cases hempty : items = []
    · subst hempty; simp at hmem
    · by_cases hopen : items.filter (fun q => q.state == "open") = []
      · simp [api_oss_poll_submitted_prs, hempty, hopen, hmem]
      · simp only [api_oss_poll_submitted_prs, if_neg hempty, if_neg hopen]
        refine List.mem_append.mpr (Or.inr ?_)
        refine List.mem_filter.mpr ⟨hmem, ?_⟩
        rcases h with h | h <;> simp [h]
  · intro hempty hopen
    simp only [api_oss_poll_submitted_prs, if_neg hempty, if_neg hopen]
    simp [List.map_map]

/-- A merged record as the repository's tests store it. -/
def prMergedW : SubmittedPR :=
  ⟨"fastify/fastify", "https://github.com/fastify/fastify/pull/50", "Old fix",
   "merged", some "APPROVED", some "2026-02-10T00:00:00Z", none, some "2026-02-15T00:00:00Z"⟩

def prOpenW : SubmittedPR :=
  ⟨"vercel/next.js", "https://github.com/vercel/next.js/pull/200", "Fix routing",
   "open", none, none, none, none⟩

/-- A probe that reports every PR merged and approved. -/
def probeW : String → Option PollGhData :=
  fun _ => some ⟨some "MERGED", some "APPROVED", some "2026-02-19T12:00:00Z", none⟩

/-- Witness for C4: a merged record is untouched by a probe that claims
everything is merged, survives the cycle, and the cycle rewrites the
collection as polled-open ++ terminal. -/
theorem claim_C4_witness :
    poll_single_pr probeW prMergedW "t" = (prMergedW, []) ∧
    prMergedW ∈ (api_oss_poll_submitted_prs probeW [prOpenW, prMergedW] "t").1 ∧
    (api_oss_poll_submitted_prs probeW [prOpenW, prMergedW] "t").1 =
      (([prOpenW, prMergedW].filter (fun q => q.state == "open")).map
        (fun q => (poll_single_pr probeW q "t").1)) ++
      [prOpenW, prMergedW].filter (fun q => q.state != "open") := by
  have h := claim_C4_poll_state_monotonic probeW [prOpenW, prMergedW] prMergedW "t"
  exact ⟨h.1 (Or.inl rfl),
         h.2.1 (by simp) (Or.inl rfl),
         h.2.2 (by simp) (by decide)⟩

/-- Claim C8 fails on the code: the agent context builder never reads a
dossier's quirks — the markdown body is identical whatever
`detectedQuirks` holds, so no section rendering the quirks (and no
[BLOCKER]/[WARNING]/[NOTE] prefixes) can appear.  The repository's own
test test_context_with_dossier_quirks asserts the quirks section exists,
so the code contradicts its tests. -/
theorem claim_C8_quirks_not_rendered :
    ∀ (env : ContextEnv) (oo repo : String) (n : Int) (title url : String)
      (rules patterns : Option String) (qs : List Quirk),
    build_agent_context env oo repo n title url (some ⟨rules, patterns, qs⟩) =
    build_agent_context env oo repo n title url (some ⟨rules, patterns, []⟩) := by
  intro env oo repo n title url rules patterns qs
  rfl

/-- Claim C9 fails on the code: `save_submitted_pr` appends a record with
exactly the keys origin_slug, pr_url, title, state, submitted_at — state
is "open" as claimed, but there is no pr_number key at all (nor
review_decision / merged_at / closed_at / last_polled_at), while the
repository's test test_save_submitted_pr_parses_pr_number expects
pr_number parsed from the URL. -/
theorem claim_C9_submitted_pr_record :
    ∀ (origin_slug pr_url title now : String),
    (save_submitted_pr origin_slug pr_url title now).lookup "pr_number" = none ∧
    (save_submitted_pr origin_slug pr_url title now).lookup "state" = some (.str "open") ∧
    (save_submitted_pr origin_slug pr_url title now).map Prod.fst =
      ["origin_slug", "pr_url", "title", "state", "submitted_at"] := by
  intro origin_slug pr_url title now
  refine ⟨?_, ?_, rfl⟩ <;> simp [save_submitted_pr, List.lookup]

end VibeDispatch
